import Mathlib

/-!
Verification development for the IEC 60870-5-104 protocol engine exposed by
the `c104` Python package (repository `iec104-python`).  The engine itself is
a native extension module (`c104._c104`); the repository ships only its
Python-facing tests, examples and the thin wrapper.  The definitions below
are therefore shallow models of the engine, written from the repository's
specification document, and each model's doc comment records exactly which
missing component it stands in for.
-/

namespace C104

/-- Modelled from the spec: the error taxonomy of §7 (ERROR HANDLING DESIGN)
of the engine, whose implementation lives in the native `_c104` module and is
not part of the Python sources. -/
inductive Err where
  | ValueOutOfRange
  | TypeMismatch
  | InvalidCommandValue
  | EncodingError
  | MalformedFrame
  deriving DecidableEq, Repr

/-! ## Information-object codec (spec §4.1, §4.3) -/

/-- Modelled from the spec: the closed tagged set of information-object
variants of §4.3 ("a closed, tagged set of variants, one per wire type"),
restricted to the representative members the spec itself enumerates:
single-point status, double-point status, step position with transient flag,
scaled measured value, bitstring of 32 bits, and an integrated-total
(binary counter) value.  The native codec is not in the Python sources. -/
inductive IOValue where
  | singlePoint (isOn : Bool)
  | doublePoint (d : Nat)
  | stepPos (v : Int) (transient : Bool)
  | scaled (v : Int)
  | bitstring32 (w : Nat)
  | counter (v : Int)
  deriving DecidableEq, Repr

/-- Modelled from the spec: the variant tag (information-object type) of a
value, used to reject cross-type assignment (§4.3, §9 "Variant value
model"). -/
inductive IOType where
  | singlePoint
  | doublePoint
  | stepPos
  | scaled
  | bitstring32
  | counter
  deriving DecidableEq, Repr

/-- The tag carried by a variant value. -/
def IOValue.tag : IOValue → IOType
  | .singlePoint _ => .singlePoint
  | .doublePoint _ => .doublePoint
  | .stepPos _ _ => .stepPos
  | .scaled _ => .scaled
  | .bitstring32 _ => .bitstring32
  | .counter _ => .counter

/-- Modelled from the spec: each variant "carries its own validity domain"
(§4.3); e.g. a step position lies in −64..63, a scaled value in an int16,
a double-point indication in two bits. -/
def IOValue.inDomain : IOValue → Bool
  | .singlePoint _ => true
  | .doublePoint d => d < 4
  | .stepPos v _ => -64 ≤ v && v ≤ 63
  | .scaled v => -32768 ≤ v && v ≤ 32767
  | .bitstring32 w => w < 4294967296
  | .counter v => -2147483648 ≤ v && v ≤ 2147483647

/-- Modelled from the spec: the canonical byte layout of each variant
(§4.1 "Numeric encodings ... each have a canonical byte width and bit
layout"): single/double point in one byte, step position as a VTI byte
(7-bit two's complement value plus transient bit 7), scaled value as a
little-endian int16, bitstring and counter as little-endian 32-bit words.
Defined on in-domain values only; `encode` guards the domain. -/
def rawEncode : IOValue → List Nat
  | .singlePoint isOn => [if isOn then 1 else 0]
  | .doublePoint d => [d]
  | .stepPos v transient =>
      [((v % 128).toNat) + (if transient then 128 else 0)]
  | .scaled v =>
      let n := (v % 65536).toNat
      [n % 256, n / 256]
  | .bitstring32 w =>
      [w % 256, w / 256 % 256, w / 65536 % 256, w / 16777216 % 256]
  | .counter v =>
      let n := (v % 4294967296).toNat
      [n % 256, n / 256 % 256, n / 65536 % 256, n / 16777216 % 256]

/-- Modelled from the spec: encoding a value outside the variant's domain
"fail[s] at encode time with `ValueOutOfRange`" (§4.1); in-domain values
encode to their canonical bytes. -/
def encode (v : IOValue) : Except Err (List Nat) :=
  if v.inDomain then .ok (rawEncode v) else .error .ValueOutOfRange

/-- Modelled from the spec: the decoding direction of the codec (§4.1),
keyed by the expected information-object type of the point, inverting the
canonical byte layout. -/
def decode : IOType → List Nat → Option IOValue
  | .singlePoint, [b] => some (.singlePoint (b % 2 == 1))
  | .doublePoint, [b] => if b < 4 then some (.doublePoint b) else none
  | .stepPos, [b] =>
      let raw := b % 128
      let value : Int := if raw < 64 then (raw : Int) else (raw : Int) - 128
      some (.stepPos value (128 ≤ b))
  | .scaled, [b0, b1] =>
      let m := b0 % 256 + 256 * (b1 % 256)
      let value : Int := if m < 32768 then (m : Int) else (m : Int) - 65536
      some (.scaled value)
  | .bitstring32, [b0, b1, b2, b3] =>
      some (.bitstring32 (b0 % 256 + 256 * (b1 % 256) + 65536 * (b2 % 256)
        + 16777216 * (b3 % 256)))
  | .counter, [b0, b1, b2, b3] =>
      let m := b0 % 256 + 256 * (b1 % 256) + 65536 * (b2 % 256)
        + 16777216 * (b3 % 256)
      let value : Int := if m < 2147483648 then (m : Int) else (m : Int) - 4294967296
      some (.counter value)
  | _, _ => none

/-! ## Link-state sequence numbers (spec §4.2) -/

/-- Modelled from the spec: the per-connection link counters of §3
("send_seq: u15, recv_seq: u15 ... sequence numbers are always taken modulo
2^15"); the link state machine lives in the native module. -/
structure LinkSeq where
  send_seq : Nat
  recv_seq : Nat
  deriving DecidableEq, Repr

/-- Modelled from the spec: "Every I-format send increments `send_seq`"
(§4.2), taken modulo 2^15 (§3 invariant). -/
def sendIFrame (s : LinkSeq) : LinkSeq :=
  { s with send_seq := (s.send_seq + 1) % 32768 }

/-- Modelled from the spec: "every I-format receipt increments `recv_seq`"
(§4.2), taken modulo 2^15. -/
def recvIFrame (s : LinkSeq) : LinkSeq :=
  { s with recv_seq := (s.recv_seq + 1) % 32768 }

/-! ## Quality, points, stations, registry (spec §3, §4.4) -/

/-- Modelled from the spec: the `Quality` bit-set of §4.3
(`INVALID, NOT_TOPICAL, SUBSTITUTED, BLOCKED, OVERFLOW`). -/
structure Quality where
  invalid : Bool
  notTopical : Bool
  substituted : Bool
  blocked : Bool
  overflow : Bool
  deriving DecidableEq, Repr

/-- The derived "good" predicate of §4.3: zero quality bits set. -/
def Quality.isGood (q : Quality) : Bool :=
  !q.invalid && !q.notTopical && !q.substituted && !q.blocked && !q.overflow

/-- The all-clear quality value. -/
def Quality.good : Quality := ⟨false, false, false, false, false⟩

/-- Modelled from the spec: the `Point` record of §3 (io_address, type,
value, quality, report interval, related io-address, auto-return flag); the
native point class is not in the Python sources.  Timestamps and command
mode are omitted: no claim below mentions them. -/
structure Point where
  ioAddress : Nat
  ptype : IOType
  value : IOValue
  quality : Quality
  reportIntervalMs : Nat
  relatedIoAddress : Option Nat
  relatedAutoreturn : Bool
  deriving DecidableEq, Repr

/-- Modelled from the spec: value assignment on a point (§3 Point invariant,
§9 "Variant value model"): a value whose variant tag does not match the
point's type fails with `TypeMismatch` rather than coercing; an in-variant
but out-of-domain value fails with `ValueOutOfRange`; otherwise the value is
stored.  On failure the point is returned unchanged. -/
def Point.setValue (p : Point) (v : IOValue) : Point × Option Err :=
  if v.tag = p.ptype then
    if v.inDomain then ({ p with value := v }, none)
    else (p, some .ValueOutOfRange)
  else (p, some .TypeMismatch)

/-- A default in-domain value for each information-object type, used when a
fresh point is registered. -/
def IOType.defaultValue : IOType → IOValue
  | .singlePoint => .singlePoint false
  | .doublePoint => .doublePoint 0
  | .stepPos => .stepPos 0 false
  | .scaled => .scaled 0
  | .bitstring32 => .bitstring32 0
  | .counter => .counter 0

/-- Modelled from the spec: the `Station` record of §3
(`common_address`, `points: map<io_address, Point>` with unique keys),
realised as an association list in registration order. -/
structure Station where
  commonAddress : Nat
  points : List Point
  deriving DecidableEq, Repr

/-- Point lookup by io-address within a station. -/
def Station.get_point (st : Station) (ioa : Nat) : Option Point :=
  st.points.find? (fun p => p.ioAddress == ioa)

/-- Modelled from the spec: point registration under the §3 invariant "an
io-address is unique within a station"; registering an io-address that is
already present leaves the station unchanged and yields no new point
(the callers in `tests/test.py` observe a `None` return and fetch the
existing object with `get_point`). -/
def Station.add_point (st : Station) (ioa : Nat) (ty : IOType) :
    Station × Option Point :=
  match st.get_point ioa with
  | some _ => (st, none)
  | none =>
      let p : Point :=
        { ioAddress := ioa, ptype := ty, value := ty.defaultValue,
          quality := Quality.good, reportIntervalMs := 0,
          relatedIoAddress := none, relatedAutoreturn := false }
      ({ st with points := st.points ++ [p] }, some p)

/-- Modelled from the spec: a client connection's station registry (§3
`Connection`, §4.4), the map common-address → station realised as an
association list in registration order. -/
structure Connection where
  stations : List Station
  deriving DecidableEq, Repr

/-- Station lookup by common address. -/
def Connection.get_station (c : Connection) (ca : Nat) : Option Station :=
  c.stations.find? (fun s => s.commonAddress == ca)

/-- Modelled from the spec: station registration under the §3 invariant "a
common address is unique within a client's connection"; registering a
duplicate common address leaves the registry unchanged and yields no new
station (the callers in `tests/client.py` observe a `None` return and fetch
the existing object with `get_station`). -/
def Connection.add_station (c : Connection) (ca : Nat) :
    Connection × Option Station :=
  match c.get_station ca with
  | some _ => (c, none)
  | none =>
      let st : Station := ⟨ca, []⟩
      ({ stations := c.stations ++ [st] }, some st)

/-! ## Incoming-report dispatch and discovery (spec §4.4, §7) -/

/-- Modelled from the spec: the decoded incoming message of §3 (`Message`),
restricted to the fields the dispatch path reads. -/
structure IncomingMsg where
  commonAddress : Nat
  ioAddress : Nat
  value : IOValue
  cot : Nat
  deriving DecidableEq, Repr

/-- Modelled from the spec: the user-observable events of the dispatch
boundary (§4.4 Discovery, §6 callbacks, §7 `UnexpectedMessage` "reported via
callback, never raised"). -/
inductive ClientEvent where
  | newStation (ca : Nat)
  | newPoint (ca ioa : Nat) (ty : IOType)
  | unexpectedMessage (m : IncomingMsg)
  | pointUpdated (ca ioa : Nat)
  deriving DecidableEq, Repr

/-- Replace the value of the point at `ioa` (when present) with the result
of the guarded assignment `Point.setValue`. -/
def Station.applyReport (st : Station) (ioa : Nat) (v : IOValue) : Station :=
  { st with
    points := st.points.map
      (fun p => if p.ioAddress == ioa then (p.setValue v).1 else p) }

/-- Modelled from the spec: client-side handling of an incoming report
(§4.4 Discovery): an unregistered common address is NOT auto-created —
the `on_new_station` event fires and the message is classified as
unexpected; a registered station with an unregistered io-address fires
`on_new_point` likewise; only a registered point is updated.  The registry
is returned together with the list of emitted events; nothing is thrown. -/
def handleIncomingReport (c : Connection) (m : IncomingMsg) :
    Connection × List ClientEvent :=
  match c.get_station m.commonAddress with
  | none => (c, [.newStation m.commonAddress, .unexpectedMessage m])
  | some st =>
      match st.get_point m.ioAddress with
      | none =>
          (c, [.newPoint m.commonAddress m.ioAddress m.value.tag,
               .unexpectedMessage m])
      | some _ =>
          let st' := st.applyReport m.ioAddress m.value
          ({ stations := c.stations.map
              (fun s => if s.commonAddress == m.commonAddress then st' else s) },
           [.pointUpdated m.commonAddress m.ioAddress])

/-! ## Related-point auto-return (spec §4.4) -/

/-- Modelled from the spec: the non-fatal warning channel of §4.4
("reporting `RELATED POINT NOT FOUND` as a non-fatal warning if the address
is stale"). -/
inductive ServerWarning where
  | relatedPointNotFound (ioa : Nat)
  deriving DecidableEq, Repr

/-- Overwrite the stored value of the point at `ioa`, leaving every other
point untouched (mirror step of auto-return). -/
def Station.mirrorValue (st : Station) (ioa : Nat) (v : IOValue) : Station :=
  { st with
    points := st.points.map
      (fun p => if p.ioAddress == ioa then { p with value := v } else p) }

/-- Modelled from the spec: auto-return on command confirmation (§4.4): "on
receipt of a confirmed command, if `related_autoreturn` is true, the
registry looks up the related point and mirrors the command's resulting
value onto it, reporting `RELATED POINT NOT FOUND` as a non-fatal warning if
the address is stale."  Returns the (possibly) updated station, whether the
command completed successfully, and the optional warning. -/
def applyAutoReturn (st : Station) (cmd : Point) (commandedValue : IOValue) :
    Station × Bool × Option ServerWarning :=
  match cmd.relatedIoAddress with
  | none => (st, true, none)
  | some ria =>
      if cmd.relatedAutoreturn then
        match st.get_point ria with
        | some _ => (st.mirrorValue ria commandedValue, true, none)
        | none => (st, true, some (.relatedPointNotFound ria))
      else (st, true, none)

/-! ## Command lifecycle (spec §4.5) -/

/-- Modelled from the spec: a confirmation activation/deactivation ASDU as
seen by the command-correlation logic of §4.5, tagged with its arrival time
in milliseconds after the transmit call. -/
structure Confirmation where
  commonAddress : Nat
  ioAddress : Nat
  cot : Nat
  isNegative : Bool
  arrivalMs : Nat
  deriving DecidableEq, Repr

/-- Modelled from the spec: the outcome value of a command transmit call. -/
inductive CmdOutcome where
  | SUCCESS
  | FAILURE
  deriving DecidableEq, Repr

/-- Modelled from the spec: everything a caller can observe about one
transmit call — the outcome, whether an exception escaped, whether the
connection was closed, and when the call resolved (ms after issue). -/
structure TransmitResult where
  outcome : CmdOutcome
  raisedException : Bool
  connectionClosed : Bool
  resolveMs : Nat
  deriving DecidableEq, Repr

/-- Modelled from the spec: confirmation correlation "by common-address +
io-address + cause" (§4.5). -/
def matchesCommand (ca ioa cot : Nat) (f : Confirmation) : Bool :=
  f.commonAddress == ca && f.ioAddress == ioa && f.cot == cot

/-- Modelled from the spec: the synchronous transmit wait of §4.5: the call
resolves when a matching confirmation arrives within `timeoutMs`, "or when
the timeout elapses, in which case the call yields `FAILURE` without
throwing"; timeouts are command-level only (§7 `Timeout`: "returned as
failure outcome, connection unaffected"). -/
def transmitAwait (timeoutMs ca ioa cot : Nat) (incoming : List Confirmation) :
    TransmitResult :=
  match incoming.find?
      (fun f => matchesCommand ca ioa cot f && decide (f.arrivalMs ≤ timeoutMs)) with
  | some f =>
      { outcome := if f.isNegative then .FAILURE else .SUCCESS,
        raisedException := false, connectionClosed := false,
        resolveMs := f.arrivalMs }
  | none =>
      { outcome := .FAILURE, raisedException := false,
        connectionClosed := false, resolveMs := timeoutMs }

/-! ## NaN setpoint commands (spec §4.3, §8) -/

/-- Modelled from the spec: the short-float payload of a setpoint command
(type `C_SE_NC_1`), abstracted as a rational number or the distinguished
NaN, which is "representable but must be flagged" (§4.3). -/
inductive ShortFloat where
  | num (q : ℚ)
  | nan
  deriving DecidableEq

/-- NaN test on the abstract short float. -/
def ShortFloat.isNan : ShortFloat → Bool
  | .nan => true
  | .num _ => false

/-- Modelled from the spec: a client-side setpoint command point
(`C_SE_NC_1`) carrying a short-float value. -/
structure SetpointCmdPoint where
  ioAddress : Nat
  value : ShortFloat
  deriving DecidableEq

/-- Value assignment on a setpoint command point; NaN is representable in
the point's state, so the assignment always succeeds (§4.3). -/
def SetpointCmdPoint.setValue (p : SetpointCmdPoint) (v : ShortFloat) :
    SetpointCmdPoint :=
  { p with value := v }

/-- Modelled from the spec: transmit of a setpoint command: a NaN value is
"rejected at transmit time with `InvalidCommandValue`" and "no bytes reach
the transport" (§4.3, §8); otherwise the command frame is handed to the
transport.  The second component is the list of frames that reach the
transport. -/
def transmitSetpoint (p : SetpointCmdPoint) :
    Except Err Unit × List (Nat × ℚ) :=
  match p.value with
  | .nan => (.error .InvalidCommandValue, [])
  | .num q => (.ok (), [(p.ioAddress, q)])

/-! ## Batch transmission (spec §2, §3, §8) -/

/-- Modelled from the spec: a `Batch` — an "ordered sequence of Points
sharing one cause and transmission instant" (§3); constructed from a point
list, extended by `add_point` at the end. -/
structure Batch where
  cause : Nat
  points : List Point
  deriving DecidableEq, Repr

/-- Batch construction from the constructor's point list. -/
def Batch.create (cause : Nat) (pts : List Point) : Batch := ⟨cause, pts⟩

/-- Appending one more point to a batch, after the existing ones. -/
def Batch.add_point (b : Batch) (p : Point) : Batch :=
  { b with points := b.points ++ [p] }

/-- Modelled from the spec: an encoded ASDU — type id, cause of
transmission, and the ordered list of information objects, each an
io-address together with its value (§2 "APDU Codec", §6). -/
structure ASDU where
  typeId : Option IOType
  cause : Nat
  objects : List (Nat × IOValue)
  deriving DecidableEq, Repr

/-- Modelled from the spec: batch transmission "grouping multiple points
sharing cause/type into one ASDU" (§2); the result is the list of ASDUs
put on the wire for this batch. -/
def transmit_batch (b : Batch) : List ASDU :=
  [{ typeId := b.points.head?.map Point.ptype, cause := b.cause,
     objects := b.points.map (fun p => (p.ioAddress, p.value)) }]

/-! ## Transport security (spec §4.6, §7) -/

/-- Modelled from the spec: the `TransportSecurity` configuration of §3/§4.6
restricted to the validation-mode fields; certificates are abstracted to
identifiers compared for exact equality. -/
structure TransportSecurity where
  validate : Bool
  only_known : Bool
  allowedCerts : List Nat
  caSigned : List Nat
  deriving DecidableEq, Repr

/-- Modelled from the spec: the result of the TLS handshake phase. -/
inductive HandshakeOutcome where
  | established
  | closedDuringHandshake
  deriving DecidableEq, Repr

/-- Modelled from the spec: certificate validation during the TLS handshake
(§4.6): with `validate=false` no peer check; with `validate=true,
only_known=true` the peer certificate "must exactly match one of an
enumerated allow-list"; with `only_known=false` it must chain to the
configured CA.  Security errors "are connection-fatal at handshake time and
must not silently downgrade" (§7). -/
def tlsHandshake (cfg : TransportSecurity) (peerCert : Nat) :
    HandshakeOutcome :=
  if !cfg.validate then .established
  else if cfg.only_known then
    if cfg.allowedCerts.contains peerCert then .established
    else .closedDuringHandshake
  else
    if cfg.caSigned.contains peerCert then .established
    else .closedDuringHandshake

/-- Modelled from the spec: a secured connection exchanges ASDUs only after
the handshake establishes; a handshake rejection closes the connection with
zero ASDUs exchanged (§7, §8).  The second component is the list of ASDUs
exchanged over the connection's lifetime. -/
def runSecuredConnection (cfg : TransportSecurity) (peerCert : Nat)
    (pending : List ASDU) : HandshakeOutcome × List ASDU :=
  match tlsHandshake cfg peerCert with
  | .closedDuringHandshake => (.closedDuringHandshake, [])
  | .established => (.established, pending)

end C104

namespace C104

/-! ## Theorems -/

theorem sendIFrame_iterate (s : LinkSeq) (n : Nat) (h : s.send_seq < 32768) :
    (sendIFrame^[n] s).send_seq = (s.send_seq + n) % 32768 ∧
    (sendIFrame^[n] s).recv_seq = s.recv_seq := by
  induction n generalizing s with
  | zero =>
      refine ⟨?_, rfl⟩
      simp [Function.iterate_zero]
      omega
  | succ k ih =>
      rw [Function.iterate_succ_apply]
      have hlt : (sendIFrame s).send_seq < 32768 := by
        simp [sendIFrame]
        omega
      have h2 := ih (sendIFrame s) hlt
      refine ⟨?_, h2.2⟩
      rw [h2.1]
      simp [sendIFrame]
      omega

/-- C8: sequence numbers are taken modulo 2^15: every I-format send
increments `send_seq` mod 2^15, so 32,768 consecutive I-frame sends from any
starting state return `send_seq` to its starting value. -/
theorem send_seq_wraps_at_2_pow_15 (s : LinkSeq) (h : s.send_seq < 32768) :
    (∀ t : LinkSeq, (sendIFrame t).send_seq = (t.send_seq + 1) % 32768) ∧
    (sendIFrame^[32768] s).send_seq = s.send_seq := by
  refine ⟨fun t => rfl, ?_⟩
  rw [(sendIFrame_iterate s 32768 h).1]
  omega

/-- Witness for C8 at a concrete starting state. -/
theorem send_seq_wraps_at_2_pow_15_witness :
    (sendIFrame^[32768] ⟨17, 5⟩).send_seq = 17 :=
  (send_seq_wraps_at_2_pow_15 ⟨17, 5⟩ (by decide)).2

theorem decode_rawEncode (v : IOValue) (h : v.inDomain = true) :
    decode v.tag (rawEncode v) = some v := by
  cases v with
  | singlePoint b => cases b <;> rfl
  | doublePoint d =>
      have hd : d < 4 := by simpa [IOValue.inDomain] using h
      simp [IOValue.tag, rawEncode, decode, hd]
  | stepPos v t =>
      have hd : -64 ≤ v ∧ v ≤ 63 := by simpa [IOValue.inDomain] using h
      obtain ⟨h1, h2⟩ := hd
      have hm0 : 0 ≤ v % 128 := Int.emod_nonneg v (by norm_num)
      have hm1 : v % 128 < 128 := Int.emod_lt_of_pos v (by norm_num)
      have hn : ((v % 128).toNat : Int) = v % 128 := Int.toNat_of_nonneg hm0
      cases t with
      | false =>
          simp [IOValue.tag, rawEncode, decode]
          constructor
          · split <;> omega
          · omega
      | true =>
          simp [IOValue.tag, rawEncode, decode]
          rw [sup_of_le_left hm0]
          split <;> omega
  | scaled v =>
      have hd : -32768 ≤ v ∧ v ≤ 32767 := by simpa [IOValue.inDomain] using h
      obtain ⟨h1, h2⟩ := hd
      have hm0 : 0 ≤ v % 65536 := Int.emod_nonneg v (by norm_num)
      have hm1 : v % 65536 < 65536 := Int.emod_lt_of_pos v (by norm_num)
      have hn : ((v % 65536).toNat : Int) = v % 65536 := Int.toNat_of_nonneg hm0
      simp only [IOValue.tag, rawEncode, decode, Option.some.injEq,
        IOValue.scaled.injEq]
      split <;> omega
  | bitstring32 w =>
      have hd : w < 4294967296 := by simpa [IOValue.inDomain] using h
      simp only [IOValue.tag, rawEncode, decode, Option.some.injEq,
        IOValue.bitstring32.injEq]
      omega
  | counter v =>
      have hd : -2147483648 ≤ v ∧ v ≤ 2147483647 := by
        simpa [IOValue.inDomain] using h
      obtain ⟨h1, h2⟩ := hd
      have hm0 : 0 ≤ v % 4294967296 := Int.emod_nonneg v (by norm_num)
      have hm1 : v % 4294967296 < 4294967296 := Int.emod_lt_of_pos v (by norm_num)
      have hn : ((v % 4294967296).toNat : Int) = v % 4294967296 :=
        Int.toNat_of_nonneg hm0
      simp only [IOValue.tag, rawEncode, decode, Option.some.injEq,
        IOValue.counter.injEq]
      split <;> omega

/-- C1: for every supported information-object variant, a value in the
variant's valid domain encodes successfully and decodes back to itself
exactly; a value outside the domain fails deterministically at encode time
with `ValueOutOfRange` and produces no bytes. -/
theorem codec_roundtrip_and_out_of_range (v : IOValue) :
    (v.inDomain = true →
      encode v = .ok (rawEncode v) ∧ decode v.tag (rawEncode v) = some v) ∧
    (v.inDomain = false → encode v = .error .ValueOutOfRange) := by
  constructor
  · intro h
    exact ⟨by simp [encode, h], decode_rawEncode v h⟩
  · intro h
    simp [encode, h]

/-- Witness for C1: a concrete in-domain step position round-trips, and the
out-of-domain step position 64 fails with `ValueOutOfRange`. -/
theorem codec_roundtrip_and_out_of_range_witness :
    (encode (.stepPos (-64) true) = .ok (rawEncode (.stepPos (-64) true)) ∧
      decode (IOValue.stepPos (-64) true).tag (rawEncode (.stepPos (-64) true))
        = some (.stepPos (-64) true)) ∧
    encode (.stepPos 64 false) = .error .ValueOutOfRange :=
  ⟨(codec_roundtrip_and_out_of_range (.stepPos (-64) true)).1 (by decide),
   (codec_roundtrip_and_out_of_range (.stepPos 64 false)).2 (by decide)⟩

/-- C4: assigning a value whose variant tag does not match the point's
declared information-object type fails with `TypeMismatch` rather than
coercing, and the failed assignment leaves the point's previous value and
quality unchanged. -/
theorem setValue_type_mismatch (p : Point) (v : IOValue) (h : v.tag ≠ p.ptype) :
    p.setValue v = (p, some .TypeMismatch) ∧
    (p.setValue v).1.value = p.value ∧
    (p.setValue v).1.quality = p.quality := by
  simp [Point.setValue, h]

/-- Witness for C4: assigning a scaled value to a single-point typed point
fails with `TypeMismatch` and leaves the point unchanged. -/
theorem setValue_type_mismatch_witness :
    let p : Point :=
      { ioAddress := 11, ptype := .singlePoint, value := .singlePoint false,
        quality := Quality.good, reportIntervalMs := 0,
        relatedIoAddress := none, relatedAutoreturn := false }
    p.setValue (.scaled 5) = (p, some .TypeMismatch) ∧
    (p.setValue (.scaled 5)).1.value = p.value ∧
    (p.setValue (.scaled 5)).1.quality = p.quality :=
  setValue_type_mismatch _ (.scaled 5) (by decide)

/-- C10: registering a station under an already-registered common address
(or a point under an already-present io-address) returns no new object,
leaves the registry unchanged, and the previously registered object stays
retrievable with its attributes intact. -/
theorem add_duplicate_returns_none (c : Connection) (ca : Nat) (st₀ : Station)
    (hst : c.get_station ca = some st₀)
    (st : Station) (ioa : Nat) (ty : IOType) (p₀ : Point)
    (hpt : st.get_point ioa = some p₀) :
    c.add_station ca = (c, none) ∧
    (c.add_station ca).1.get_station ca = some st₀ ∧
    st.add_point ioa ty = (st, none) ∧
    (st.add_point ioa ty).1.get_point ioa = some p₀ := by
  refine ⟨?_, ?_, ?_, ?_⟩ <;>
    simp [Connection.add_station, Station.add_point, hst, hpt]

/-- Witness for C10 on a concrete registry holding station 47 with one
point at io-address 31. -/
theorem add_duplicate_returns_none_witness :
    let p : Point :=
      { ioAddress := 31, ptype := .stepPos, value := .stepPos 0 false,
        quality := Quality.good, reportIntervalMs := 0,
        relatedIoAddress := none, relatedAutoreturn := false }
    let st : Station := ⟨47, [p]⟩
    let c : Connection := ⟨[st]⟩
    c.add_station 47 = (c, none) ∧
    (c.add_station 47).1.get_station 47 = some st ∧
    st.add_point 31 .stepPos = (st, none) ∧
    (st.add_point 31 .stepPos).1.get_point 31 = some p :=
  add_duplicate_returns_none _ 47 _ (by decide) _ 31 .stepPos _ (by decide)

/-- C5: an incoming report for an unregistered common address (or an
unregistered io-address within a registered station) does not auto-create
any station or point and mutates nothing: the registry is returned
unchanged, the new-station / new-point event fires, and the message is
classified as an unexpected message reported via callback, never raised. -/
theorem unregistered_report_no_autocreate (c : Connection) (m : IncomingMsg) :
    (c.get_station m.commonAddress = none →
      handleIncomingReport c m =
        (c, [.newStation m.commonAddress, .unexpectedMessage m])) ∧
    (∀ st, c.get_station m.commonAddress = some st →
      st.get_point m.ioAddress = none →
      handleIncomingReport c m =
        (c, [.newPoint m.commonAddress m.ioAddress m.value.tag,
             .unexpectedMessage m])) := by
  constructor
  · intro h
    simp [handleIncomingReport, h]
  · intro st h1 h2
    simp [handleIncomingReport, h1, h2]

/-- Witness for C5: a report for common address 46 on a registry holding
only station 47 leaves the registry unchanged and fires the new-station
event; a report for io-address 32 on registered station 47 (which has no
points) fires the new-point event and also leaves the registry unchanged. -/
theorem unregistered_report_no_autocreate_witness :
    let c : Connection := ⟨[⟨47, []⟩]⟩
    let m1 : IncomingMsg := ⟨46, 32, .stepPos 1 false, 3⟩
    let m2 : IncomingMsg := ⟨47, 32, .stepPos 1 false, 3⟩
    handleIncomingReport c m1 =
      (c, [.newStation 46, .unexpectedMessage m1]) ∧
    handleIncomingReport c m2 =
      (c, [.newPoint 47 32 .stepPos, .unexpectedMessage m2]) :=
  ⟨(unregistered_report_no_autocreate _ _).1 (by decide),
   (unregistered_report_no_autocreate _ _).2 ⟨47, []⟩ (by decide) (by decide)⟩

theorem find?_map_mirror (points : List Point) (ioa : Nat) (v : IOValue)
    (p₀ : Point) (h : points.find? (fun p => p.ioAddress == ioa) = some p₀) :
    (points.map
        (fun p => if p.ioAddress == ioa then { p with value := v } else p)).find?
      (fun p => p.ioAddress == ioa) = some { p₀ with value := v } := by
  induction points with
  | nil => simp at h
  | cons q qs ih =>
      by_cases hq : (q.ioAddress == ioa) = true
      · have hh : List.find? (fun p => p.ioAddress == ioa) (q :: qs) = some q :=
          List.find?_cons_of_pos _ hq
        rw [hh] at h
        cases h
        simp only [List.map_cons, if_pos hq]
        have hfind : List.find? (fun p => p.ioAddress == ioa)
            (({ p₀ with value := v } : Point) :: List.map
              (fun p => if p.ioAddress == ioa then { p with value := v } else p)
              qs)
            = some { p₀ with value := v } :=
          List.find?_cons_of_pos _ hq
        exact hfind
      · have hh : List.find? (fun p => p.ioAddress == ioa) (q :: qs)
            = List.find? (fun p => p.ioAddress == ioa) qs :=
          List.find?_cons_of_neg _ hq
        rw [hh] at h
        simp only [List.map_cons, if_neg hq]
        have hstep : List.find? (fun p => p.ioAddress == ioa)
            (q :: List.map
              (fun p => if p.ioAddress == ioa then { p with value := v } else p)
              qs)
            = List.find? (fun p => p.ioAddress == ioa)
              (List.map
                (fun p => if p.ioAddress == ioa then { p with value := v } else p)
                qs) :=
          List.find?_cons_of_neg _ hq
        rw [hstep]
        exact ih h

/-- C6: on a confirmed command against a point with `related_io_address`
set and `related_autoreturn = true`, if the related io-address resolves to
a point, that point's value is set to the commanded value and the command
completes successfully; if it does not resolve, the command still completes
successfully, no point is mutated, and only the non-fatal
related-point-not-found warning is reported. -/
theorem autoreturn_mirrors_or_warns (st : Station) (cmd : Point) (v : IOValue)
    (ria : Nat) (hria : cmd.relatedIoAddress = some ria)
    (har : cmd.relatedAutoreturn = true) :
    (∀ p₀, st.get_point ria = some p₀ →
      applyAutoReturn st cmd v = (st.mirrorValue ria v, true, none) ∧
      (applyAutoReturn st cmd v).1.get_point ria = some { p₀ with value := v } ∧
      ({ p₀ with value := v } : Point).value = v) ∧
    (st.get_point ria = none →
      applyAutoReturn st cmd v = (st, true, some (.relatedPointNotFound ria))) := by
  constructor
  · intro p₀ hp
    refine ⟨by simp [applyAutoReturn, hria, har, hp], ?_, rfl⟩
    simp only [applyAutoReturn, hria, har, hp, if_pos]
    exact find?_map_mirror st.points ria v p₀ hp
  · intro hp
    simp [applyAutoReturn, hria, har, hp]

/-- Witness for C6: a station with a measurement point at io-address 11 and
a command point related to 11 mirrors the commanded value onto point 11; a
command related to the stale io-address 13 completes with only a warning
and no mutation. -/
theorem autoreturn_mirrors_or_warns_witness :
    let meas : Point :=
      { ioAddress := 11, ptype := .scaled, value := .scaled 12,
        quality := Quality.good, reportIntervalMs := 1000,
        relatedIoAddress := none, relatedAutoreturn := false }
    let cmd : Point :=
      { ioAddress := 12, ptype := .scaled, value := .scaled 0,
        quality := Quality.good, reportIntervalMs := 0,
        relatedIoAddress := some 11, relatedAutoreturn := true }
    let cmd2 : Point :=
      { ioAddress := 13, ptype := .scaled, value := .scaled 0,
        quality := Quality.good, reportIntervalMs := 0,
        relatedIoAddress := some 99, relatedAutoreturn := true }
    let st : Station := ⟨47, [meas, cmd, cmd2]⟩
    ((applyAutoReturn st cmd (.scaled 55)).1.get_point 11 =
        some { meas with value := .scaled 55 } ∧
      (applyAutoReturn st cmd (.scaled 55)).2.1 = true) ∧
    applyAutoReturn st cmd2 (.scaled 55) =
      (st, true, some (.relatedPointNotFound 99)) := by
  refine ⟨⟨?_, ?_⟩, ?_⟩
  · exact (((autoreturn_mirrors_or_warns _ _ (.scaled 55) 11 (by decide)
      (by decide)).1 _ (by decide)).2).1
  · rfl
  · exact (autoreturn_mirrors_or_warns _ _ (.scaled 55) 99 (by decide)
      (by decide)).2 (by decide)

/-- C2: a command transmit that receives no matching confirmation
(correlated by common-address + io-address + cause) within
`command_timeout_ms` resolves to the `FAILURE` outcome without raising an
exception and without closing the connection, at exactly the timeout; with
`command_timeout_ms = 100` it resolves within 100–150 ms and never hangs. -/
theorem transmit_timeout_yields_failure (timeoutMs ca ioa cot : Nat)
    (incoming : List Confirmation)
    (h : ∀ f ∈ incoming,
      (matchesCommand ca ioa cot f && decide (f.arrivalMs ≤ timeoutMs)) = false) :
    transmitAwait timeoutMs ca ioa cot incoming =
      { outcome := .FAILURE, raisedException := false,
        connectionClosed := false, resolveMs := timeoutMs } ∧
    (timeoutMs = 100 →
      100 ≤ (transmitAwait timeoutMs ca ioa cot incoming).resolveMs ∧
      (transmitAwait timeoutMs ca ioa cot incoming).resolveMs ≤ 150) := by
  have hfind : incoming.find?
      (fun f => matchesCommand ca ioa cot f && decide (f.arrivalMs ≤ timeoutMs))
      = none := by
    rw [List.find?_eq_none]
    intro x hx
    simp [h x hx]
  constructor
  · simp [transmitAwait, hfind]
  · intro ht
    subst ht
    simp [transmitAwait, hfind]

/-- Witness for C2: with timeout 100 ms and only a non-matching
confirmation (wrong common address) in flight, the call yields `FAILURE`
with no exception, no connection closure, resolving at 100 ms. -/
theorem transmit_timeout_yields_failure_witness :
    transmitAwait 100 46 32 6 [⟨47, 32, 6, false, 20⟩] =
      { outcome := .FAILURE, raisedException := false,
        connectionClosed := false, resolveMs := 100 } ∧
    100 ≤ (transmitAwait 100 46 32 6 [⟨47, 32, 6, false, 20⟩]).resolveMs ∧
    (transmitAwait 100 46 32 6 [⟨47, 32, 6, false, 20⟩]).resolveMs ≤ 150 := by
  have h := transmit_timeout_yields_failure 100 46 32 6 [⟨47, 32, 6, false, 20⟩]
    (by decide)
  exact ⟨h.1, h.2 rfl⟩

/-- C3: assigning NaN to a setpoint command point succeeds (NaN is
representable in the point's state), but the subsequent transmit is refused
with `InvalidCommandValue` and no bytes of the command reach the
transport. -/
theorem nan_setpoint_rejected_no_bytes (p : SetpointCmdPoint) :
    (p.setValue .nan).value = .nan ∧
    (p.setValue .nan).value.isNan = true ∧
    transmitSetpoint (p.setValue .nan) = (.error .InvalidCommandValue, []) :=
  ⟨rfl, rfl, rfl⟩

theorem batch_foldl_points (cause : Nat) (init extra : List Point) :
    (extra.foldl Batch.add_point (Batch.create cause init)).points
      = init ++ extra ∧
    (extra.foldl Batch.add_point (Batch.create cause init)).cause = cause := by
  induction extra generalizing init with
  | nil => simp [Batch.create]
  | cons p rest ih =>
      rw [List.foldl_cons]
      have hstep : Batch.add_point (Batch.create cause init) p
          = Batch.create cause (init ++ [p]) := rfl
      rw [hstep]
      have h := ih (init ++ [p])
      simpa [List.append_assoc] using h

/-- C7: a batch built from a constructor point list followed by `add_point`
calls, all sharing one cause, transmits as exactly one ASDU whose
information objects are all the batch's points in input order (constructor
list order followed by add_point order). -/
theorem transmit_batch_single_asdu (cause : Nat) (init extra : List Point) :
    transmit_batch (extra.foldl Batch.add_point (Batch.create cause init)) =
      [{ typeId := (init ++ extra).head?.map Point.ptype, cause := cause,
         objects := (init ++ extra).map (fun p => (p.ioAddress, p.value)) }] ∧
    (transmit_batch
      (extra.foldl Batch.add_point (Batch.create cause init))).length = 1 := by
  have h := batch_foldl_points cause init extra
  refine ⟨?_, rfl⟩
  simp [transmit_batch, h.1, h.2]

/-- C9: with `validate = true` and `only_known = true`, a peer whose
certificate does not exactly match a certificate in the configured
allow-list has its connection closed during the TLS handshake and zero
ASDUs are ever exchanged on that connection. -/
theorem unknown_cert_closed_during_handshake (cfg : TransportSecurity)
    (peerCert : Nat) (pending : List ASDU)
    (hv : cfg.validate = true) (hk : cfg.only_known = true)
    (hc : cfg.allowedCerts.contains peerCert = false) :
    tlsHandshake cfg peerCert = .closedDuringHandshake ∧
    runSecuredConnection cfg peerCert pending = (.closedDuringHandshake, []) := by
  have hc2 : peerCert ∉ cfg.allowedCerts := by simpa using hc
  have hh : tlsHandshake cfg peerCert = .closedDuringHandshake := by
    simp [tlsHandshake, hv, hk, hc2]
  exact ⟨hh, by simp [runSecuredConnection, hh]⟩

/-- Witness for C9: certificate 3 against allow-list [1, 2] closes during
handshake with an empty exchanged-ASDU trace even though an ASDU was
pending. -/
theorem unknown_cert_closed_during_handshake_witness :
    tlsHandshake ⟨true, true, [1, 2], []⟩ 3 = .closedDuringHandshake ∧
    runSecuredConnection ⟨true, true, [1, 2], []⟩ 3
        [⟨none, 3, []⟩] = (.closedDuringHandshake, []) :=
  unknown_cert_closed_during_handshake ⟨true, true, [1, 2], []⟩ 3
    [⟨none, 3, []⟩] rfl rfl (by decide)

end C104
